import Mathlib

/-!
Verification of the Recipe Book Manager catalog store
(`src/recipe_book_manager.py`, class `RecipeBookManager`).

Strings are modelled as `List Char` (`Str` below); the Firestore
collections `recipes` and `favorites` are modelled as association lists
from document id to document data, and `firestore.SERVER_TIMESTAMP` as a
logical clock `now` carried by the store and bumped at each write.
Python `str.lower()` is modelled character-wise on ASCII, which is the
range the slug regular expressions `[^a-z0-9\s-]`, `\s+`, `-+` act on.
-/

namespace RecipeBook

/-- Strings of the Python program, as lists of characters. -/
abbrev Str := List Char

/-- Python `\s` on ASCII: space, tab, newline, vertical tab, form feed,
carriage return. -/
def isPySpace (c : Char) : Bool :=
  decide (c = ' ' ∨ c = '\t' ∨ c = '\n' ∨ c = '\x0b' ∨ c = '\x0c' ∨ c = '\r')

/-- The character class kept by `re.sub(r'[^a-z0-9\s-]', '', ...)`:
lowercase letters, digits, whitespace, hyphen. -/
def keepChar (c : Char) : Bool :=
  (decide ('a' ≤ c) && decide (c ≤ 'z'))
    || (decide ('0' ≤ c) && decide (c ≤ '9'))
    || isPySpace c
    || decide (c = '-')

/-- Model of `re.sub(r'[^a-z0-9\s-]', '', s)`: drop every character outside the class. -/
def stripNonAllowed (s : Str) : Str := s.filter keepChar

/-- Python `str.strip()`: remove leading and trailing whitespace. -/
def pyStrip (s : Str) : Str :=
  ((s.dropWhile isPySpace).reverse.dropWhile isPySpace).reverse

/-- Worker for `re.sub(r'\s+', '-', s)`: the flag records whether we are
inside a whitespace run whose hyphen has already been emitted. -/
def wsToHyphensAux : Bool → Str → Str
  | _, [] => []
  | inRun, c :: rest =>
    if isPySpace c then
      if inRun then wsToHyphensAux true rest
      else '-' :: wsToHyphensAux true rest
    else c :: wsToHyphensAux false rest

/-- Model of `re.sub(r'\s+', '-', s)`: replace each maximal whitespace run by one hyphen. -/
def wsToHyphens (s : Str) : Str := wsToHyphensAux false s

/-- Worker for `re.sub(r'-+', '-', s)`. -/
def hyphenCollapseAux : Bool → Str → Str
  | _, [] => []
  | inRun, c :: rest =>
    if c = '-' then
      if inRun then hyphenCollapseAux true rest
      else '-' :: hyphenCollapseAux true rest
    else c :: hyphenCollapseAux false rest

/-- Model of `re.sub(r'-+', '-', s)`: collapse each run of hyphens to a single hyphen. -/
def collapseHyphens (s : Str) : Str := hyphenCollapseAux false s

/-- Python `str.lower()`, character-wise (ASCII range). -/
def lowerStr (s : Str) : Str := s.map Char.toLower

/-- Lines 19-23 of `generate_recipe_id`: `clean_title` after the three
`re.sub` passes and `.strip()`, truncated to 50 characters (`base_id`). -/
def baseId (title : Str) : Str :=
  (collapseHyphens (wsToHyphens (pyStrip (stripNonAllowed (lowerStr title))))).take 50

/-- The base identifier the claim text literally describes: lowercase,
strip disallowed characters, collapse whitespace runs to single hyphens
(no trimming step is mentioned), collapse repeated hyphens, truncate to 50. -/
def claimBaseId (title : Str) : Str :=
  (collapseHyphens (wsToHyphens (stripNonAllowed (lowerStr title)))).take 50

/-- Decimal digit character, as produced by Python string formatting. -/
def decDigit : Nat → Char
  | 0 => '0' | 1 => '1' | 2 => '2' | 3 => '3' | 4 => '4'
  | 5 => '5' | 6 => '6' | 7 => '7' | 8 => '8' | _ => '9'

/-- Fuel-driven decimal rendering of a natural number (most significant
digit first), matching Python `f"{n}"` for the counters the program uses. -/
def natToDecAux : Nat → Nat → Str
  | 0, _ => []
  | fuel + 1, n =>
    if n < 10 then [decDigit n]
    else natToDecAux fuel (n / 10) ++ [decDigit (n % 10)]

/-- Decimal rendering of a natural number, e.g. `natToDec 12 = ['1','2']`. -/
def natToDec (n : Nat) : Str := natToDecAux (n + 1) n

/-- Value of a digit string, a left inverse used to show `natToDec` is injective. -/
def decValue (s : Str) : Nat := s.foldl (fun a c => 10 * a + (c.toNat - 48)) 0

/-- A recipe document, with the fields written by `create_recipe`
(lines 41-53). `createdAt` models `firestore.SERVER_TIMESTAMP`. -/
structure Recipe where
  title : Str
  description : Str
  prepTime : Int
  cookTime : Int
  servings : Int
  ingredients : List Str
  instructions : List Str
  category : Str
  tags : List Str
  userId : Str
  createdAt : Nat
deriving DecidableEq

/-- A favorite document, with the fields written by `add_to_favorites`
(lines 145-150). `addedDate` models `firestore.SERVER_TIMESTAMP`. -/
structure Favorite where
  recipeId : Str
  userId : Str
  notes : Str
  addedDate : Nat
deriving DecidableEq

/-- The external document store: the `recipes` and `favorites` collections
as association lists from document id to document, plus the logical clock
that stands in for server timestamps. -/
structure Store where
  recipes : List (Str × Recipe)
  favorites : List (Str × Favorite)
  now : Nat
deriving DecidableEq

/-- Firestore `collection.document(key).get()`: point lookup of a document. -/
def getDoc {V : Type} : List (Str × V) → Str → Option V
  | [], _ => none
  | (k, v) :: rest, key => if k = key then some v else getDoc rest key

/-- Firestore `collection.document(key).set(v)`: overwrite or create. -/
def setDoc {V : Type} : List (Str × V) → Str → V → List (Str × V)
  | [], key, v => [(key, v)]
  | (k, w) :: rest, key, v =>
    if k = key then (key, v) :: rest else (k, w) :: setDoc rest key v

/-- Firestore `collection.document(key).delete()`. -/
def delDoc {V : Type} : List (Str × V) → Str → List (Str × V)
  | [], _ => []
  | (k, w) :: rest, key =>
    if k = key then delDoc rest key else (k, w) :: delDoc rest key

/-- Model of `recipe_exists` (lines 33-35): does a recipe document with this id exist. -/
def recipe_exists (s : Store) (recipe_id : Str) : Bool :=
  (getDoc s.recipes recipe_id).isSome

/-- The candidate id `f"{base_id}-{counter}"` tried on a collision (line 28). -/
def candId (base : Str) (counter : Nat) : Str := base ++ '-' :: natToDec counter

/-- The `while self.recipe_exists(recipe_id)` loop of `generate_recipe_id`
(lines 25-29), with explicit fuel. The Python loop is unbounded; the
theorems below show that `s.recipes.length + 1` iterations always reach an
id that does not exist, so this fuel is never exhausted. -/
def probeLoop (s : Store) (base : Str) : Nat → Nat → Str → Str
  | 0, _, cur => cur
  | fuel + 1, counter, cur =>
    if recipe_exists s cur then probeLoop s base fuel (counter + 1) (candId base counter)
    else cur

/-- Model of `generate_recipe_id` (lines 18-31). The `user_id` parameter is accepted
and ignored, exactly as in the Python source. -/
def generate_recipe_id (s : Store) (title user_id : Str) : Str :=
  let base := baseId title
  probeLoop s base (s.recipes.length + 1) 1 base

/-- Model of `create_recipe` (lines 37-60): build the document, generate the id,
`set` the document, return the id. `tags` is an optional parameter
defaulting to `None`, stored as `tags or []`. -/
def create_recipe (s : Store) (user_id title description : Str)
    (prep_time cook_time servings : Int)
    (ingredients instructions : List Str) (category : Str)
    (tags : Option (List Str)) : Str × Store :=
  let storedTags : List Str :=
    match tags with
    | none => []
    | some ts => if ts = [] then [] else ts
  let recipe : Recipe :=
    { title := title, description := description, prepTime := prep_time,
      cookTime := cook_time, servings := servings, ingredients := ingredients,
      instructions := instructions, category := category, tags := storedTags,
      userId := user_id, createdAt := s.now }
  let recipe_id := generate_recipe_id s title user_id
  (recipe_id, { s with recipes := setDoc s.recipes recipe_id recipe, now := s.now + 1 })

/-- Model of `get_recipe` (lines 62-68): point lookup; the Python code also copies
`doc.id` into the returned dict, which here is the key the caller passed. -/
def get_recipe (s : Store) (recipe_id : Str) : Option Recipe :=
  getDoc s.recipes recipe_id

/-- The `**updates` keyword dictionary accepted by `update_recipe`: an
optional new value for each recipe content field. -/
structure RecipeUpdate where
  title : Option Str := none
  description : Option Str := none
  prepTime : Option Int := none
  cookTime : Option Int := none
  servings : Option Int := none
  ingredients : Option (List Str) := none
  instructions : Option (List Str) := none
  category : Option Str := none
  tags : Option (List Str) := none
deriving DecidableEq

/-- Firestore `recipe_ref.update(updates)` (line 81): merge exactly the
supplied fields into the stored document. -/
def applyUpdate (r : Recipe) (u : RecipeUpdate) : Recipe :=
  { title := u.title.getD r.title,
    description := u.description.getD r.description,
    prepTime := u.prepTime.getD r.prepTime,
    cookTime := u.cookTime.getD r.cookTime,
    servings := u.servings.getD r.servings,
    ingredients := u.ingredients.getD r.ingredients,
    instructions := u.instructions.getD r.instructions,
    category := u.category.getD r.category,
    tags := u.tags.getD r.tags,
    userId := r.userId, createdAt := r.createdAt }

/-- Model of `update_recipe` (lines 70-85): fail on missing document or owner
mismatch, otherwise merge the supplied fields. -/
def update_recipe (s : Store) (recipe_id user_id : Str) (u : RecipeUpdate) :
    Bool × Store :=
  match getDoc s.recipes recipe_id with
  | none => (false, s)
  | some r =>
    if r.userId ≠ user_id then (false, s)
    else (true, { s with recipes := setDoc s.recipes recipe_id (applyUpdate r u) })

/-- Python truthiness of an optional string: `None` and `""` are falsy. -/
def pyTruthy (o : Option Str) : Bool :=
  match o with
  | none => false
  | some t => decide (t ≠ [])

/-- Model of `get_user_recipes` (lines 106-122): query on `userId`, with the
category filter added only `if category:` and the `array_contains` tag
filter added only `if tag:`. Each streamed doc carries its id. -/
def get_user_recipes (s : Store) (user_id : Str) (category tag : Option Str) :
    List (Str × Recipe) :=
  s.recipes.filter (fun p =>
    decide (p.2.userId = user_id)
      && (if pyTruthy category then decide (p.2.category = category.getD []) else true)
      && (if pyTruthy tag then decide (tag.getD [] ∈ p.2.tags) else true))

/-- Python `needle in hay` on strings: `needle` occurs as a contiguous
substring of `hay`. `startHere` is the anchored prefix test. -/
def startHere : Str → Str → Bool
  | [], _ => true
  | _ :: _, [] => false
  | a :: as, b :: bs => decide (a = b) && startHere as bs

/-- Substring containment: `containsSub hay needle`. -/
def containsSub : Str → Str → Bool
  | hay, needle =>
    if startHere needle hay then true
    else
      match hay with
      | [] => false
      | _ :: t => containsSub t needle

/-- Model of `search_recipes_by_title` (lines 124-133): fetch all of the user's
recipes, keep those whose lowercased title contains the lowercased term. -/
def search_recipes_by_title (s : Store) (user_id search_term : Str) :
    List (Str × Recipe) :=
  (get_user_recipes s user_id none none).filter
    (fun p => containsSub (lowerStr p.2.title) (lowerStr search_term))

/-- The favorite document id `f"fav-{user_id}-{recipe_id}"` (lines 144, 160, 172). -/
def favId (user_id recipe_id : Str) : Str :=
  'f' :: 'a' :: 'v' :: '-' :: (user_id ++ '-' :: recipe_id)

/-- Model of `is_favorited` (lines 170-174). -/
def is_favorited (s : Store) (recipe_id user_id : Str) : Bool :=
  (getDoc s.favorites (favId user_id recipe_id)).isSome

/-- Model of `add_to_favorites` (lines 135-155): fail if the recipe is missing or
the pair is already favorited, otherwise write the favorite document. -/
def add_to_favorites (s : Store) (recipe_id user_id notes : Str) : Bool × Store :=
  match get_recipe s recipe_id with
  | none => (false, s)
  | some _ =>
    if is_favorited s recipe_id user_id then (false, s)
    else
      (true,
        { s with
          favorites := setDoc s.favorites (favId user_id recipe_id)
            { recipeId := recipe_id, userId := user_id, notes := notes,
              addedDate := s.now },
          now := s.now + 1 })

/-- Model of `remove_from_favorites` (lines 157-168): delete the favorite document
of this (user, recipe) pair if it exists. -/
def remove_from_favorites (s : Store) (recipe_id user_id : Str) : Bool × Store :=
  let fref := favId user_id recipe_id
  if (getDoc s.favorites fref).isSome then
    (true, { s with favorites := delDoc s.favorites fref })
  else (false, s)

/-- Model of `delete_recipe` (lines 87-104): same guards as update; on success
delete the recipe document and then call
`remove_from_favorites(recipe_id, user_id)` with the deleter's own id. -/
def delete_recipe (s : Store) (recipe_id user_id : Str) : Bool × Store :=
  match getDoc s.recipes recipe_id with
  | none => (false, s)
  | some r =>
    if r.userId ≠ user_id then (false, s)
    else
      let s1 := { s with recipes := delDoc s.recipes recipe_id }
      (true, (remove_from_favorites s1 recipe_id user_id).2)

/-- One row produced by `get_user_favorites`: the recipe dict (with its
`id`) plus the `favoriteNotes` and `favoritedDate` fields copied from the
favorite document (lines 186-189). -/
structure FavEntry where
  id : Str
  recipe : Recipe
  favoriteNotes : Str
  favoritedDate : Nat
deriving DecidableEq

/-- The loop body of `get_user_favorites` (lines 181-189): look the
favorite's recipe up with `get_recipe`; keep the joined row if it exists. -/
def favJoin (s : Store) (p : Str × Favorite) : Option FavEntry :=
  match get_recipe s p.2.recipeId with
  | some r => some ⟨p.2.recipeId, r, p.2.notes, p.2.addedDate⟩
  | none => none

/-- Model of `get_user_favorites` (lines 176-191): stream the user's favorite
documents, join each back to its recipe with `get_recipe`, and silently
drop favorites whose recipe no longer exists. -/
def get_user_favorites (s : Store) (user_id : Str) : List FavEntry :=
  (s.favorites.filter (fun p => decide (p.2.userId = user_id))).filterMap (favJoin s)

/-- Model of `toggle_favorite` (lines 193-198). -/
def toggle_favorite (s : Store) (recipe_id user_id : Str) : Bool × Store :=
  if is_favorited s recipe_id user_id then remove_from_favorites s recipe_id user_id
  else add_to_favorites s recipe_id user_id []

/-- The filter claim C8 literally describes: a given category must match
exactly and a given tag must be contained, with no exception for empty
strings. Used only to compare against `get_user_recipes`. -/
def claimUserRecipes (s : Store) (user_id : Str) (category tag : Option Str) :
    List (Str × Recipe) :=
  s.recipes.filter (fun p =>
    decide (p.2.userId = user_id)
      && (match category with
          | some c => decide (p.2.category = c)
          | none => true)
      && (match tag with
          | some t => decide (t ∈ p.2.tags)
          | none => true))

/-- A sample recipe used in concrete witnesses. -/
def sampleRecipe : Recipe :=
  { title := "Soup".data, description := ['d'], prepTime := 5, cookTime := 10,
    servings := 2, ingredients := [['w']], instructions := [['b']],
    category := "Main".data, tags := [['q']], userId := ['u'], createdAt := 0 }

/-- A sample store holding one recipe under id "soup", owned by user `u`. -/
def sampleStore : Store := ⟨[("soup".data, sampleRecipe)], [], 1⟩

/-- A sample store where user `u` has favorited the recipe "soup". -/
def sampleFavStore : Store :=
  ⟨[("soup".data, sampleRecipe)],
   [(favId ['u'] "soup".data, ⟨"soup".data, ['u'], [], 1⟩)], 2⟩

/-- A store already holding ids "pizza" and "pizza-1", both owned by `u`. -/
def pizzaStore : Store :=
  ⟨[("pizza".data, sampleRecipe), ("pizza-1".data, sampleRecipe)], [], 2⟩

/-- A recipe owned by user `a`, used to exercise cross-user favorites. -/
def crossRecipe : Recipe :=
  { title := ['P'], description := [], prepTime := 0, cookTime := 0,
    servings := 1, ingredients := [['w']], instructions := [['b']],
    category := ['m'], tags := [], userId := ['a'], createdAt := 0 }

/-- A store where user `b` has favorited the recipe "p" owned by user `a`. -/
def crossFavStore : Store :=
  ⟨[(['p'], crossRecipe)], [(favId ['b'] ['p'], ⟨['p'], ['b'], [], 0⟩)], 1⟩

theorem decValue_append_digit (s : Str) (c : Char) :
    decValue (s ++ [c]) = 10 * decValue s + (c.toNat - 48) := by
  simp [decValue, List.foldl_append]

theorem decDigit_toNat {n : Nat} (h : n < 10) : (decDigit n).toNat - 48 = n := by
  revert h
  revert n
  decide

theorem decValue_natToDecAux : ∀ fuel n, n < fuel → decValue (natToDecAux fuel n) = n := by
  intro fuel
  induction fuel with
  | zero => intro n h; omega
  | succ f ih =>
    intro n h
    by_cases h10 : n < 10
    · simp [natToDecAux, h10, decValue, decDigit_toNat h10]
    · have hrec : n / 10 < f := by
        have h0 : 0 < n := by omega
        have := Nat.div_lt_self h0 (by omega : 1 < 10)
        omega
      simp only [natToDecAux, if_neg h10, decValue_append_digit, ih _ hrec]
      have := decDigit_toNat (Nat.mod_lt n (by omega) : n % 10 < 10)
      omega

theorem decValue_natToDec (n : Nat) : decValue (natToDec n) = n :=
  decValue_natToDecAux (n + 1) n (Nat.lt_succ_self n)

theorem natToDec_inj {m n : Nat} (h : natToDec m = natToDec n) : m = n := by
  have := decValue_natToDec m
  rw [h, decValue_natToDec] at this
  omega

theorem natToDecAux_ne_nil (fuel n : Nat) (h : 0 < fuel) : natToDecAux fuel n ≠ [] := by
  cases fuel with
  | zero => omega
  | succ f =>
    by_cases h10 : n < 10 <;> simp [natToDecAux, h10]

theorem natToDec_ne_nil (n : Nat) : natToDec n ≠ [] :=
  natToDecAux_ne_nil (n + 1) n (Nat.succ_pos n)

theorem getDoc_setDoc_self {V : Type} (l : List (Str × V)) (key : Str) (v : V) :
    getDoc (setDoc l key v) key = some v := by
  induction l with
  | nil => simp [setDoc, getDoc]
  | cons p rest ih =>
    obtain ⟨k, w⟩ := p
    by_cases h : k = key <;> simp [setDoc, getDoc, h, ih]

theorem getDoc_setDoc_ne {V : Type} (l : List (Str × V)) (key key' : Str) (v : V)
    (h : key' ≠ key) : getDoc (setDoc l key v) key' = getDoc l key' := by
  induction l with
  | nil => simp [setDoc, getDoc, Ne.symm h]
  | cons p rest ih =>
    obtain ⟨k, w⟩ := p
    by_cases hk : k = key
    · subst hk
      simp [setDoc, getDoc, Ne.symm h]
    · simp only [setDoc, if_neg hk, getDoc]
      by_cases hk' : k = key' <;> simp [hk', ih]

theorem getDoc_delDoc_self {V : Type} (l : List (Str × V)) (key : Str) :
    getDoc (delDoc l key) key = none := by
  induction l with
  | nil => simp [delDoc, getDoc]
  | cons p rest ih =>
    obtain ⟨k, w⟩ := p
    by_cases h : k = key <;> simp [delDoc, getDoc, h, ih]

theorem getDoc_delDoc_ne {V : Type} (l : List (Str × V)) (key key' : Str)
    (h : key' ≠ key) : getDoc (delDoc l key) key' = getDoc l key' := by
  induction l with
  | nil => simp [delDoc, getDoc]
  | cons p rest ih =>
    obtain ⟨k, w⟩ := p
    by_cases hk : k = key
    · subst hk
      simp [delDoc, getDoc, Ne.symm h, ih]
    · simp only [delDoc, if_neg hk, getDoc]
      by_cases hk' : k = key' <;> simp [hk', ih]

theorem getDoc_isSome_iff {V : Type} (l : List (Str × V)) (key : Str) :
    (getDoc l key).isSome = true ↔ key ∈ l.map Prod.fst := by
  induction l with
  | nil => simp [getDoc]
  | cons p rest ih =>
    obtain ⟨k, w⟩ := p
    by_cases h : k = key
    · subst h
      simp only [getDoc, if_pos rfl, Option.isSome_some, List.map_cons]
      exact ⟨fun _ => List.mem_cons_self _ _, fun _ => rfl⟩
    · simp only [getDoc, if_neg h, List.map_cons, List.mem_cons]
      rw [ih]
      constructor
      · exact fun hm => Or.inr hm
      · intro hm
        rcases hm with he | hm
        · exact absurd he.symm h
        · exact hm

theorem candId_inj {base : Str} {i j : Nat} (h : candId base i = candId base j) :
    i = j := by
  unfold candId at h
  have h2 : '-' :: natToDec i = '-' :: natToDec j := List.append_cancel_left h
  injection h2 with _ h3
  exact natToDec_inj h3

theorem candId_ne_base (base : Str) (i : Nat) : candId base i ≠ base := by
  intro h
  have hlen := congrArg List.length h
  simp [candId] at hlen

theorem recipe_exists_false_iff (s : Store) (rid : Str) :
    recipe_exists s rid = false ↔ rid ∉ s.recipes.map Prod.fst := by
  unfold recipe_exists
  rw [← getDoc_isSome_iff s.recipes rid]
  cases (getDoc s.recipes rid).isSome <;> simp

/-- Among `base` and the collision candidates `base-1 … base-n` there are
`n + 1` distinct strings, so at least one of them is absent from any list
of `n` ids. -/
theorem exists_unused_cand (l : List Str) (base : Str) :
    ∃ i, i < l.length + 1 ∧ (if i = 0 then base else candId base i) ∉ l := by
  by_contra hcon
  push_neg at hcon
  have hinj : Function.Injective (fun i : Nat => if i = 0 then base else candId base i) := by
    intro a b hab
    change (if a = 0 then base else candId base a)
      = (if b = 0 then base else candId base b) at hab
    by_cases ha : a = 0
    · by_cases hb : b = 0
      · omega
      · rw [if_pos ha, if_neg hb] at hab
        exact absurd hab.symm (candId_ne_base base b)
    · by_cases hb : b = 0
      · rw [if_neg ha, if_pos hb] at hab
        exact absurd hab (candId_ne_base base a)
      · rw [if_neg ha, if_neg hb] at hab
        exact candId_inj hab
  have hsub : (Finset.range (l.length + 1)).image
      (fun i : Nat => if i = 0 then base else candId base i) ⊆ l.toFinset := by
    intro x hx
    rw [Finset.mem_image] at hx
    obtain ⟨i, hi, rfl⟩ := hx
    rw [List.mem_toFinset]
    exact hcon i (Finset.mem_range.mp hi)
  have hcard := Finset.card_le_card hsub
  rw [Finset.card_image_of_injective _ hinj, Finset.card_range] at hcard
  have := l.toFinset_card_le
  omega

/-- The collision loop, started at counter `k + 1` with current candidate
`base-k`: if some candidate within the fuel budget is unused, the loop
stops at the first unused candidate. -/
theorem probeLoop_spec (s : Store) (base : Str) :
    ∀ fuel k, (∃ j, j < fuel ∧ recipe_exists s (candId base (k + j)) = false) →
      ∃ i, i < fuel
        ∧ probeLoop s base fuel (k + 1) (candId base k) = candId base (k + i)
        ∧ recipe_exists s (candId base (k + i)) = false
        ∧ ∀ j, j < i → recipe_exists s (candId base (k + j)) = true := by
  intro fuel
  induction fuel with
  | zero =>
    rintro k ⟨j, hj, _⟩
    omega
  | succ f ih =>
    rintro k ⟨j, hj, hfree⟩
    by_cases hk : recipe_exists s (candId base k) = true
    · have hj0 : j ≠ 0 := by
        intro h0
        rw [h0, Nat.add_zero, hk] at hfree
        cases hfree
      obtain ⟨j', rfl⟩ : ∃ j', j = j' + 1 := ⟨j - 1, by omega⟩
      have hfree' : recipe_exists s (candId base ((k + 1) + j')) = false := by
        have harith : (k + 1) + j' = k + (j' + 1) := by omega
        rw [harith]
        exact hfree
      obtain ⟨i', hi'f, hres, hfree2, hall⟩ := ih (k + 1) ⟨j', by omega, hfree'⟩
      have harith2 : (k + 1) + i' = k + (i' + 1) := by omega
      refine ⟨i' + 1, by omega, ?_, ?_, ?_⟩
      · simp only [probeLoop, if_pos hk]
        rw [hres, harith2]
      · rw [← harith2]
        exact hfree2
      · intro j hji
        rcases Nat.eq_zero_or_pos j with hj0' | hjpos
        · rw [hj0', Nat.add_zero]
          exact hk
        · obtain ⟨j'', rfl⟩ : ∃ j'', j = j'' + 1 := ⟨j - 1, by omega⟩
          have harith3 : k + (j'' + 1) = (k + 1) + j'' := by omega
          rw [harith3]
          exact hall j'' (by omega)
    · refine ⟨0, by omega, ?_, ?_, ?_⟩
      · simp only [probeLoop, if_neg hk]
        rfl
      · simp only [Bool.not_eq_true] at hk
        rw [Nat.add_zero]
        exact hk
      · intro j hj
        omega

/-- One unfolding of `generate_recipe_id`: either the base id is free and
is returned, or the loop proceeds from candidate `base-1`. -/
theorem generate_recipe_id_eq (s : Store) (title user_id : Str) :
    generate_recipe_id s title user_id =
      if recipe_exists s (baseId title) then
        probeLoop s (baseId title) s.recipes.length 2 (candId (baseId title) 1)
      else baseId title := by
  unfold generate_recipe_id
  simp only [probeLoop]

/-- C1 is false as literally stated: for the title `"a "` (with a
trailing space) the code produces the id `"a"`, while the derivation the
claim describes - which never trims whitespace, so the trailing
whitespace run is collapsed to a hyphen - produces `"a-"`. The code
additionally applies Python `str.strip()` before collapsing whitespace
runs (line 20 of the source). -/
theorem C1_counterexample :
    (create_recipe (⟨[], [], 0⟩ : Store) ['u'] ("a ".data) [] 0 0 1
        [['w']] [['b']] ['m'] none).1 = "a".data
    ∧ claimBaseId ("a ".data) = "a-".data
    ∧ (create_recipe (⟨[], [], 0⟩ : Store) ['u'] ("a ".data) [] 0 0 1
        [['w']] [['b']] ['m'] none).1 ≠ claimBaseId ("a ".data) := by
  decide

/-- C1 (amended): `generate_recipe_id` derives the base identifier by
lowercasing, stripping characters outside lowercase-alphanumeric /
whitespace / hyphen, trimming leading and trailing whitespace, collapsing
the remaining whitespace runs to single hyphens, collapsing repeated
hyphens and truncating to 50 characters (`baseId`); if that base id
already exists it appends `-1`, `-2`, ... until an unused id is found.
The result ignores the user id and otherwise depends only on the title
and the stored ids; creating "Pizza" then "Pizza!!" yields
"pizza" and "pizza-1". -/
theorem C1_generate_id (s : Store) (title u1 u2 : Str) :
    generate_recipe_id s title u1 = generate_recipe_id s title u2
    ∧ recipe_exists s (generate_recipe_id s title u1) = false
    ∧ (recipe_exists s (baseId title) = false →
        generate_recipe_id s title u1 = baseId title)
    ∧ (recipe_exists s (baseId title) = true →
        ∃ k, 1 ≤ k ∧ generate_recipe_id s title u1 = candId (baseId title) k
          ∧ ∀ j, 1 ≤ j → j < k → recipe_exists s (candId (baseId title) j) = true)
    ∧ (create_recipe (⟨[], [], 0⟩ : Store) ['u'] "Pizza".data [] 0 0 1
        [['w']] [['b']] ['m'] none).1 = "pizza".data
    ∧ (create_recipe (create_recipe (⟨[], [], 0⟩ : Store) ['u'] "Pizza".data [] 0 0 1
        [['w']] [['b']] ['m'] none).2 ['u'] "Pizza!!".data [] 0 0 1
        [['w']] [['b']] ['m'] none).1 = "pizza-1".data := by
  refine ⟨rfl, ?_, ?_, ?_, by decide, by decide⟩
  · by_cases hb : recipe_exists s (baseId title) = true
    · rw [generate_recipe_id_eq, if_pos hb]
      obtain ⟨i, hi, hfree⟩ := exists_unused_cand (s.recipes.map Prod.fst) (baseId title)
      rcases Nat.eq_zero_or_pos i with hi0 | hipos
      · rw [hi0, if_pos rfl] at hfree
        rw [(recipe_exists_false_iff s (baseId title)).mpr hfree] at hb
        cases hb
      · obtain ⟨i', rfl⟩ : ∃ i', i = i' + 1 := ⟨i - 1, by omega⟩
        rw [if_neg (by omega)] at hfree
        rw [List.length_map] at hi
        have hfree2 : recipe_exists s (candId (baseId title) (1 + i')) = false := by
          rw [Nat.add_comm 1 i']
          exact (recipe_exists_false_iff s _).mpr hfree
        obtain ⟨m, _, hres, hmfree, _⟩ :=
          probeLoop_spec s (baseId title) s.recipes.length 1 ⟨i', by omega, hfree2⟩
        rw [hres]
        exact hmfree
    · simp only [Bool.not_eq_true] at hb
      rw [generate_recipe_id_eq, if_neg (by rw [hb]; exact Bool.false_ne_true)]
      exact hb
  · intro hb
    rw [generate_recipe_id_eq, if_neg (by rw [hb]; exact Bool.false_ne_true)]
  · intro hb
    rw [generate_recipe_id_eq, if_pos hb]
    obtain ⟨i, hi, hfree⟩ := exists_unused_cand (s.recipes.map Prod.fst) (baseId title)
    rcases Nat.eq_zero_or_pos i with hi0 | hipos
    · rw [hi0, if_pos rfl] at hfree
      rw [(recipe_exists_false_iff s (baseId title)).mpr hfree] at hb
      cases hb
    · obtain ⟨i', rfl⟩ : ∃ i', i = i' + 1 := ⟨i - 1, by omega⟩
      rw [if_neg (by omega)] at hfree
      rw [List.length_map] at hi
      have hfree2 : recipe_exists s (candId (baseId title) (1 + i')) = false := by
        rw [Nat.add_comm 1 i']
        exact (recipe_exists_false_iff s _).mpr hfree
      obtain ⟨m, _, hres, _, hall⟩ :=
        probeLoop_spec s (baseId title) s.recipes.length 1 ⟨i', by omega, hfree2⟩
      refine ⟨1 + m, by omega, hres, ?_⟩
      intro j hj1 hjm
      obtain ⟨j', rfl⟩ : ∃ j', j = 1 + j' := ⟨j - 1, by omega⟩
      exact hall j' (by omega)

/-- Witness for C1_generate_id at a concrete store: a store already
holding ids "pizza" and "pizza-1", where generating an id for the
title "Pizza" must walk the collision chain. -/
theorem C1_generate_id_witness :
    generate_recipe_id pizzaStore ("Pizza".data) ['a'] =
      generate_recipe_id pizzaStore ("Pizza".data) ['b']
    ∧ recipe_exists pizzaStore
        (generate_recipe_id pizzaStore ("Pizza".data) ['a']) = false := by
  have h := C1_generate_id pizzaStore ("Pizza".data) ['a'] ['b']
  exact ⟨h.1, h.2.1⟩

/-- C2: for valid inputs (non-empty ingredient and instruction lists),
the id returned by `create_recipe` resolves via `get_recipe` to a record
holding exactly the submitted title, description, prep time, cook time,
servings, ingredients, instructions, category, tags and owning user
(creation time is assigned by the store); and `get_recipe` on an id not
present in the store returns `none`. -/
theorem C2_create_then_get (s : Store) (uid title desc : Str)
    (pt ct sv : Int) (ing ins : List Str) (cat : Str) (ts : List Str)
    (hing : ing ≠ []) (hins : ins ≠ []) (missing : Str)
    (hmiss : recipe_exists s missing = false) :
    get_recipe (create_recipe s uid title desc pt ct sv ing ins cat (some ts)).2
        (create_recipe s uid title desc pt ct sv ing ins cat (some ts)).1
      = some { title := title, description := desc, prepTime := pt, cookTime := ct,
               servings := sv, ingredients := ing, instructions := ins,
               category := cat, tags := ts, userId := uid, createdAt := s.now }
    ∧ get_recipe s missing = none := by
  constructor
  · have hts : (if ts = [] then ([] : List Str) else ts) = ts := by
      by_cases h : ts = [] <;> simp [h]
    simp [create_recipe, get_recipe, getDoc_setDoc_self, hts]
  · unfold get_recipe
    unfold recipe_exists at hmiss
    cases hd : getDoc s.recipes missing with
    | none => rfl
    | some r =>
      rw [hd] at hmiss
      simp at hmiss

/-- Witness for C2_create_then_get: creating "Stew" in the sample store
and reading it back yields exactly the submitted fields. -/
theorem C2_create_then_get_witness :
    get_recipe (create_recipe sampleStore ['u'] "Stew".data ['d'] 1 2 3
        [['x']] [['y']] ['c'] (some [['t']])).2
        (create_recipe sampleStore ['u'] "Stew".data ['d'] 1 2 3
        [['x']] [['y']] ['c'] (some [['t']])).1
      = some { title := "Stew".data, description := ['d'], prepTime := 1,
               cookTime := 2, servings := 3, ingredients := [['x']],
               instructions := [['y']], category := ['c'], tags := [['t']],
               userId := ['u'], createdAt := sampleStore.now }
    ∧ get_recipe sampleStore ['z'] = none :=
  C2_create_then_get sampleStore ['u'] "Stew".data ['d'] 1 2 3
    [['x']] [['y']] ['c'] [['t']] (by decide) (by decide) ['z'] (by decide)

/-- C3: update_recipe and delete_recipe return `false` and leave the
whole store unchanged whenever the recipe is missing or the caller is not
the stored owner; when it exists and the caller is the owner,
update_recipe succeeds and stores the merge that takes each supplied
field's new value and keeps every other field. -/
theorem C3_update_delete_guard (s : Store) (rid uid : Str) (u : RecipeUpdate) :
    ((∀ r, getDoc s.recipes rid = some r → r.userId ≠ uid) →
      update_recipe s rid uid u = (false, s) ∧ delete_recipe s rid uid = (false, s))
    ∧ (∀ r, getDoc s.recipes rid = some r → r.userId = uid →
        update_recipe s rid uid u =
          (true, { s with recipes := setDoc s.recipes rid (applyUpdate r u) })
        ∧ get_recipe (update_recipe s rid uid u).2 rid = some (applyUpdate r u)
        ∧ (applyUpdate r u).title = u.title.getD r.title
        ∧ (applyUpdate r u).description = u.description.getD r.description
        ∧ (applyUpdate r u).prepTime = u.prepTime.getD r.prepTime
        ∧ (applyUpdate r u).cookTime = u.cookTime.getD r.cookTime
        ∧ (applyUpdate r u).servings = u.servings.getD r.servings
        ∧ (applyUpdate r u).ingredients = u.ingredients.getD r.ingredients
        ∧ (applyUpdate r u).instructions = u.instructions.getD r.instructions
        ∧ (applyUpdate r u).category = u.category.getD r.category
        ∧ (applyUpdate r u).tags = u.tags.getD r.tags
        ∧ (applyUpdate r u).userId = r.userId
        ∧ (applyUpdate r u).createdAt = r.createdAt) := by
  constructor
  · intro hfail
    cases hd : getDoc s.recipes rid with
    | none =>
      constructor
      · simp [update_recipe, hd]
      · simp [delete_recipe, hd]
    | some r =>
      have hne := hfail r hd
      constructor
      · simp [update_recipe, hd, hne]
      · simp [delete_recipe, hd, hne]
  · intro r hd hown
    have hupd : update_recipe s rid uid u =
        (true, { s with recipes := setDoc s.recipes rid (applyUpdate r u) }) := by
      simp [update_recipe, hd, hown]
    refine ⟨hupd, ?_, rfl, rfl, rfl, rfl, rfl, rfl, rfl, rfl, rfl, rfl, rfl⟩
    rw [hupd]
    simp [get_recipe, getDoc_setDoc_self]

/-- Witness for C3_update_delete_guard: a non-owner update and delete of
"soup" both fail and leave the sample store unchanged, and an owner
update succeeds and stores the merged record. -/
theorem C3_update_delete_guard_witness :
    (update_recipe sampleStore ("soup".data) ['v'] {} = (false, sampleStore)
      ∧ delete_recipe sampleStore ("soup".data) ['v'] = (false, sampleStore))
    ∧ update_recipe sampleStore ("soup".data) ['u'] {} =
        (true, { sampleStore with
          recipes := setDoc sampleStore.recipes ("soup".data) (applyUpdate sampleRecipe {}) }) := by
  constructor
  · apply (C3_update_delete_guard sampleStore ("soup".data) ['v'] {}).1
    intro r h
    have h2 : sampleRecipe = r := by injection h
    subst h2
    decide
  · exact ((C3_update_delete_guard sampleStore ("soup".data) ['u'] {}).2
      sampleRecipe (by decide) (by decide)).1

/-- C5: when the recipe exists, toggling a (user, recipe) favorite twice
returns it to the original favorited state. -/
theorem C5_toggle_toggle (s : Store) (rid uid : Str)
    (h : recipe_exists s rid = true) :
    is_favorited (toggle_favorite (toggle_favorite s rid uid).2 rid uid).2 rid uid
      = is_favorited s rid uid := by
  obtain ⟨r, hr⟩ : ∃ r, getDoc s.recipes rid = some r := by
    unfold recipe_exists at h
    cases hg : getDoc s.recipes rid with
    | none => rw [hg] at h; simp at h
    | some r => exact ⟨r, rfl⟩
  by_cases hfav : is_favorited s rid uid = true
  · have hg : (getDoc s.favorites (favId uid rid)).isSome = true := hfav
    have ht1 : toggle_favorite s rid uid =
        (true, { s with favorites := delDoc s.favorites (favId uid rid) }) := by
      simp [toggle_favorite, hfav, remove_from_favorites, hg]
    rw [ht1]
    set s1 : Store := { s with favorites := delDoc s.favorites (favId uid rid) }
      with hs1
    have hfav1 : is_favorited s1 rid uid = false := by
      simp [is_favorited, hs1, getDoc_delDoc_self]
    have hget1 : get_recipe s1 rid = some r := hr
    have ht2 : toggle_favorite s1 rid uid =
        (true, { s1 with
          favorites := setDoc s1.favorites (favId uid rid) ⟨rid, uid, [], s1.now⟩,
          now := s1.now + 1 }) := by
      simp [toggle_favorite, hfav1, add_to_favorites, hget1]
    rw [ht2]
    simp only [is_favorited]
    simp [getDoc_setDoc_self]
    exact hg
  · have hfavF : is_favorited s rid uid = false := by
      cases hb : is_favorited s rid uid with
      | true => exact absurd hb hfav
      | false => rfl
    have ht1 : toggle_favorite s rid uid =
        (true, { s with
          favorites := setDoc s.favorites (favId uid rid) ⟨rid, uid, [], s.now⟩,
          now := s.now + 1 }) := by
      simp [toggle_favorite, hfavF, add_to_favorites, get_recipe, hr]
    rw [ht1]
    set s1 : Store := { s with
      favorites := setDoc s.favorites (favId uid rid) ⟨rid, uid, [], s.now⟩,
      now := s.now + 1 } with hs1
    have hfav1 : (getDoc s1.favorites (favId uid rid)).isSome = true := by
      simp [hs1, getDoc_setDoc_self]
    have ht2 : toggle_favorite s1 rid uid =
        (true, { s1 with favorites := delDoc s1.favorites (favId uid rid) }) := by
      simp [toggle_favorite, is_favorited, hfav1, remove_from_favorites]
    rw [ht2]
    have hgF : (getDoc s.favorites (favId uid rid)).isSome = false := hfavF
    simp only [is_favorited]
    simp [getDoc_delDoc_self]
    cases hgo : getDoc s.favorites (favId uid rid) with
    | none => rfl
    | some f => rw [hgo] at hgF; simp at hgF

/-- Witness for C5_toggle_toggle: toggling "soup" twice for user `u`, who
currently has it favorited, ends with it favorited again. -/
theorem C5_toggle_toggle_witness :
    is_favorited (toggle_favorite (toggle_favorite sampleFavStore ("soup".data)
        ['u']).2 ("soup".data) ['u']).2 ("soup".data) ['u']
      = is_favorited sampleFavStore ("soup".data) ['u'] :=
  C5_toggle_toggle sampleFavStore ("soup".data) ['u'] (by decide)

/-- C7: the favorite document id is the fixed function
`"fav-" + userId + "-" + recipeId` of the (user, recipe) pair, and
`add_to_favorites` on an already-favorited pair returns `false` and
leaves the store (in particular the favorite record) unchanged. -/
theorem C7_add_favorite_already (s : Store) (rid uid notes : Str)
    (h : is_favorited s rid uid = true) :
    add_to_favorites s rid uid notes = (false, s)
    ∧ favId uid rid = 'f' :: 'a' :: 'v' :: '-' :: (uid ++ '-' :: rid) := by
  refine ⟨?_, rfl⟩
  cases hd : get_recipe s rid with
  | none => simp [add_to_favorites, hd]
  | some r => simp [add_to_favorites, hd, h]

/-- Witness for C7_add_favorite_already: re-favoriting "soup" for user
`u`, who already has it favorited, fails and leaves the store unchanged. -/
theorem C7_add_favorite_already_witness :
    add_to_favorites sampleFavStore ("soup".data) ['u'] ['n'] = (false, sampleFavStore) :=
  (C7_add_favorite_already sampleFavStore ("soup".data) ['u'] ['n'] (by decide)).1

/-- C10: favoriting a recipe id that does not exist in the store fails
and writes nothing, whoever the user is. -/
theorem C10_add_favorite_missing (s : Store) (rid uid notes : Str)
    (h : recipe_exists s rid = false) :
    add_to_favorites s rid uid notes = (false, s) := by
  have hd : get_recipe s rid = none := by
    unfold get_recipe
    unfold recipe_exists at h
    cases hg : getDoc s.recipes rid with
    | none => rfl
    | some r => rw [hg] at h; simp at h
  simp [add_to_favorites, hd]

/-- Witness for C10_add_favorite_missing: favoriting the absent id "z"
in the sample store fails and leaves the store unchanged. -/
theorem C10_add_favorite_missing_witness :
    add_to_favorites sampleStore ['z'] ['u'] [] = (false, sampleStore) :=
  C10_add_favorite_missing sampleStore ['z'] ['u'] [] (by decide)

theorem mem_user_favorites_get (s : Store) (uid : Str) (e : FavEntry)
    (h : e ∈ get_user_favorites s uid) : get_recipe s e.id = some e.recipe := by
  unfold get_user_favorites at h
  rw [List.mem_filterMap] at h
  obtain ⟨p, _, hj⟩ := h
  unfold favJoin at hj
  cases hg : get_recipe s p.2.recipeId with
  | none => rw [hg] at hj; cases hj
  | some r =>
    rw [hg] at hj
    injection hj with hj
    subst hj
    exact hg

/-- C4 is false as literally stated: deleting the recipe "p" as its owner
`a` succeeds, but the favorite document that user `b` holds for "p" is
not removed, because `delete_recipe` only calls `remove_from_favorites`
with the deleting owner's own user id (line 100 of the source). -/
theorem C4_counterexample :
    (delete_recipe crossFavStore ['p'] ['a']).1 = true
    ∧ getDoc (delete_recipe crossFavStore ['p'] ['a']).2.favorites (favId ['b'] ['p'])
        = some ⟨['p'], ['b'], [], 0⟩ := by
  decide

/-- C4 (amended): a successful owner delete removes the recipe document
and the owner's own favorite document for it; favorite documents other
users hold for the recipe may survive, but `get_user_favorites`
afterwards excludes the deleted recipe for every user, because the join
drops favorites whose recipe no longer exists. -/
theorem C4_delete_cascade (s : Store) (rid uid : Str) (r : Recipe)
    (hr : getDoc s.recipes rid = some r) (hown : r.userId = uid) :
    (delete_recipe s rid uid).1 = true
    ∧ getDoc (delete_recipe s rid uid).2.recipes rid = none
    ∧ getDoc (delete_recipe s rid uid).2.favorites (favId uid rid) = none
    ∧ ∀ u e, e ∈ get_user_favorites (delete_recipe s rid uid).2 u → e.id ≠ rid := by
  have hdel : delete_recipe s rid uid =
      (true, (remove_from_favorites { s with recipes := delDoc s.recipes rid }
        rid uid).2) := by
    simp [delete_recipe, hr, hown]
  set s1 : Store := { s with recipes := delDoc s.recipes rid } with hs1
  have hs2 : (remove_from_favorites s1 rid uid).2.recipes = s1.recipes := by
    unfold remove_from_favorites
    by_cases hg : (getDoc s1.favorites (favId uid rid)).isSome = true
    · simp [hg]
    · simp [hg]
  have hnone2 : getDoc (remove_from_favorites s1 rid uid).2.recipes rid = none := by
    rw [hs2, hs1]
    exact getDoc_delDoc_self s.recipes rid
  have hfavnone :
      getDoc (remove_from_favorites s1 rid uid).2.favorites (favId uid rid) = none := by
    unfold remove_from_favorites
    cases hg : getDoc s1.favorites (favId uid rid) with
    | some f => simp [hg, getDoc_delDoc_self]
    | none => simp [hg]
  refine ⟨by rw [hdel], ?_, ?_, ?_⟩
  · rw [hdel]
    exact hnone2
  · rw [hdel]
    exact hfavnone
  · intro u e he hid
    rw [hdel] at he
    have hge := mem_user_favorites_get _ u e he
    rw [hid] at hge
    unfold get_recipe at hge
    rw [hnone2] at hge
    cases hge

/-- Witness for C4_delete_cascade: the owner `u` deletes "soup", which
they had favorited; the recipe document and their favorite document are
both gone afterwards. -/
theorem C4_delete_cascade_witness :
    (delete_recipe sampleFavStore ("soup".data) ['u']).1 = true
    ∧ getDoc (delete_recipe sampleFavStore ("soup".data) ['u']).2.recipes
        "soup".data = none
    ∧ getDoc (delete_recipe sampleFavStore ("soup".data) ['u']).2.favorites
        (favId ['u'] "soup".data) = none := by
  have h := C4_delete_cascade sampleFavStore ("soup".data) ['u'] sampleRecipe
    (by decide) (by decide)
  exact ⟨h.1, h.2.1, h.2.2.1⟩

/-- C6: `get_user_favorites` contains exactly the joins of the user's
favorite documents whose recipe still exists (each row carrying the full
recipe plus the favorite's notes and date), and it has one row per such
favorite document; favorites whose recipe is gone are dropped silently. -/
theorem C6_list_favorites (s : Store) (uid : Str) :
    (∀ e, e ∈ get_user_favorites s uid ↔
      ∃ fid f, (fid, f) ∈ s.favorites ∧ f.userId = uid
        ∧ get_recipe s f.recipeId = some e.recipe
        ∧ e.id = f.recipeId ∧ e.favoriteNotes = f.notes
        ∧ e.favoritedDate = f.addedDate)
    ∧ (get_user_favorites s uid).length =
        (s.favorites.filter (fun p =>
          decide (p.2.userId = uid) && (get_recipe s p.2.recipeId).isSome)).length := by
  constructor
  · intro e
    obtain ⟨eid, erec, en, ed⟩ := e
    constructor
    · intro he
      unfold get_user_favorites at he
      rw [List.mem_filterMap] at he
      obtain ⟨p, hp, hj⟩ := he
      rw [List.mem_filter] at hp
      obtain ⟨hmem, huser⟩ := hp
      unfold favJoin at hj
      cases hg : get_recipe s p.2.recipeId with
      | none => rw [hg] at hj; cases hj
      | some r =>
        rw [hg] at hj
        injection hj with hj
        simp only [FavEntry.mk.injEq] at hj
        obtain ⟨h1, h2, h3, h4⟩ := hj
        subst h1
        subst h2
        subst h3
        subst h4
        exact ⟨p.1, p.2, hmem, of_decide_eq_true huser, hg, rfl, rfl, rfl⟩
    · rintro ⟨fid, f, hmem, huser, hrec, hid, hnotes, hdate⟩
      simp only at hid hnotes hdate
      subst hid
      subst hnotes
      subst hdate
      unfold get_user_favorites
      rw [List.mem_filterMap]
      refine ⟨(fid, f), ?_, ?_⟩
      · rw [List.mem_filter]
        exact ⟨hmem, decide_eq_true huser⟩
      · unfold favJoin
        simp only at hrec
        rw [hrec]
  · have haux : ∀ fl : List (Str × Favorite),
        ((fl.filter (fun p => decide (p.2.userId = uid))).filterMap (favJoin s)).length
          = (fl.filter (fun p => decide (p.2.userId = uid)
              && (get_recipe s p.2.recipeId).isSome)).length := by
      intro fl
      induction fl with
      | nil => rfl
      | cons p rest ih =>
        by_cases hu : p.2.userId = uid
        · cases hg : get_recipe s p.2.recipeId with
          | none =>
            simp [List.filter_cons, hu, hg, favJoin, List.filterMap_cons, ih]
          | some r =>
            simp [List.filter_cons, hu, hg, favJoin, List.filterMap_cons, ih]
        · simp [List.filter_cons, hu, ih]
    exact haux s.favorites

/-- Witness for C6_list_favorites at the sample store: the favorites list
of user `u` has exactly one row per favorite whose recipe exists. -/
theorem C6_list_favorites_witness :
    (get_user_favorites sampleFavStore ['u']).length =
      (sampleFavStore.favorites.filter (fun p =>
        decide (p.2.userId = ['u'])
          && (get_recipe sampleFavStore p.2.recipeId).isSome)).length :=
  (C6_list_favorites sampleFavStore ['u']).2

/-- C8 is false as literally stated: with the category filter given as
the empty string, the code skips the category filter entirely (the guard
`if category:` treats `""` as absent), so a recipe whose category is
"Main" is returned even though its category does not equal the given
category. -/
theorem C8_counterexample :
    get_user_recipes sampleStore ['u'] (some []) none
      ≠ claimUserRecipes sampleStore ['u'] (some []) none := by
  decide

/-- C8 (amended): `get_user_recipes` returns exactly the user's recipes
that match the category filter when a non-empty category is given and
contain the tag when a non-empty tag is given, with both filters ANDed;
an empty-string category or tag is treated as absent. -/
theorem C8_user_recipes_filter (s : Store) (uid : Str) (category tag : Option Str)
    (p : Str × Recipe) :
    p ∈ get_user_recipes s uid category tag ↔
      p ∈ s.recipes ∧ p.2.userId = uid
      ∧ (∀ c, category = some c → c ≠ [] → p.2.category = c)
      ∧ (∀ t, tag = some t → t ≠ [] → t ∈ p.2.tags) := by
  unfold get_user_recipes
  rw [List.mem_filter]
  cases category with
  | none =>
    cases tag with
    | none => simp [pyTruthy]
    | some t =>
      by_cases ht : t = []
      · subst ht; simp [pyTruthy]
      · simp [pyTruthy, ht]
  | some c =>
    by_cases hc : c = []
    · subst hc
      cases tag with
      | none => simp [pyTruthy]
      | some t =>
        by_cases ht : t = []
        · subst ht; simp [pyTruthy]
        · simp [pyTruthy, ht]
    · cases tag with
      | none => simp [pyTruthy, hc]
      | some t =>
        by_cases ht : t = []
        · subst ht; simp [pyTruthy, hc]
        · simp [pyTruthy, hc, ht, and_assoc]

/-- Witness for C8_user_recipes_filter: "soup" (category "Main", tag "q")
is returned when filtering user `u` by that category and tag. -/
theorem C8_user_recipes_filter_witness :
    ("soup".data, sampleRecipe) ∈
      get_user_recipes sampleStore ['u'] (some ("Main".data)) (some ['q']) := by
  apply (C8_user_recipes_filter sampleStore ['u'] (some ("Main".data)) (some ['q'])
    ("soup".data, sampleRecipe)).mpr
  refine ⟨by decide, by decide, ?_, ?_⟩
  · intro c hc hne
    cases hc
    decide
  · intro t ht hne
    cases ht
    decide

/-- C9: `search_recipes_by_title` returns exactly the user's recipes
whose title contains the search term as a case-insensitive substring;
after creating "Soup" (ingredients water and salt, instruction boil,
category Main) in an empty store, searching user `u` for "so" returns
that recipe and searching for "xyz" returns the empty list. -/
theorem C9_search_by_title (s : Store) (uid term : Str) :
    (∀ p, p ∈ search_recipes_by_title s uid term ↔
      p ∈ s.recipes ∧ p.2.userId = uid
        ∧ containsSub (lowerStr p.2.title) (lowerStr term) = true)
    ∧ (create_recipe (⟨[], [], 0⟩ : Store) ['u'] "Soup".data ['d'] 1 2 3
        ["water".data, "salt".data] ["boil".data] "Main".data none).1 = "soup".data
    ∧ search_recipes_by_title
        (create_recipe (⟨[], [], 0⟩ : Store) ['u'] "Soup".data ['d'] 1 2 3
          ["water".data, "salt".data] ["boil".data] "Main".data none).2
        ['u'] "so".data
      = [("soup".data,
          { title := "Soup".data, description := ['d'], prepTime := 1,
            cookTime := 2, servings := 3,
            ingredients := ["water".data, "salt".data],
            instructions := ["boil".data], category := "Main".data,
            tags := [], userId := ['u'], createdAt := 0 })]
    ∧ search_recipes_by_title
        (create_recipe (⟨[], [], 0⟩ : Store) ['u'] "Soup".data ['d'] 1 2 3
          ["water".data, "salt".data] ["boil".data] "Main".data none).2
        ['u'] "xyz".data = [] := by
  refine ⟨?_, by decide, by decide, by decide⟩
  intro p
  unfold search_recipes_by_title get_user_recipes
  rw [List.mem_filter, List.mem_filter]
  simp [pyTruthy, and_assoc]

/-- Witness for C9_search_by_title: the concrete "Soup" example from the
claim, extracted at an arbitrary instantiation of the quantifiers. -/
theorem C9_search_by_title_witness :
    (create_recipe (⟨[], [], 0⟩ : Store) ['u'] "Soup".data ['d'] 1 2 3
        ["water".data, "salt".data] ["boil".data] "Main".data none).1
      = "soup".data :=
  (C9_search_by_title (⟨[], [], 0⟩ : Store) [] []).2.1

end RecipeBook
